import Mathlib

/-!
Shallow embedding of the dbot repository core:
  - `src/include/state_filtering/system_states/full_rigid_body_system.hpp`
    (the multi-body state vector `FullRigidBodySystem`), and
  - `src/include/dbot/util/rigid_body_renderer.hpp`
    (the depth renderer `dbot.RigidBodyRenderer`).

Scalars are modelled as rationals (ℚ); the flat Eigen column vector is a
`List ℚ`.  Eigen block reads (`middleRows`, `VectorBlock`) become index
computations over that list; block writes become in-place list updates.
A floating-point depth sample is modelled as `Option ℚ`: `some d` is a
finite value, `none` is the non-finite value (the no-hit marker or the
infinity sentinel written by the renderer).
-/

/-- Word-size write of consecutive components: set positions
`start, start+1, ...` of `l` to the values of `vals` (out-of-range
positions are dropped, as `List.set` is a no-op there).  This models an
Eigen block assignment `v.middleRows<n>(start) = vals`. -/
def writeBlock (l : List ℚ) (start : ℕ) (vals : List ℚ) : List ℚ :=
  match vals with
  | [] => l
  | v :: rest => writeBlock (l.set start v) (start + 1) rest

namespace FullRigidBodySystemTypes

/-- `COUNT_PER_BODY` from the `FullRigidBodySystemTypes` enum. -/
def COUNT_PER_BODY : ℕ := 13

/-- `POSITION_INDEX` from the enum. -/
def POSITION_INDEX : ℕ := 0

/-- `POSITION_COUNT` from the enum. -/
def POSITION_COUNT : ℕ := 3

/-- `ORIENTATION_INDEX` from the enum. -/
def ORIENTATION_INDEX : ℕ := 3

/-- `ORIENTATION_COUNT` from the enum. -/
def ORIENTATION_COUNT : ℕ := 4

/-- `LINEAR_VELOCITY_INDEX` from the enum. -/
def LINEAR_VELOCITY_INDEX : ℕ := 7

/-- `LINEAR_VELOCITY_COUNT` from the enum. -/
def LINEAR_VELOCITY_COUNT : ℕ := 3

/-- `ANGULAR_VELOCITY_INDEX` from the enum. -/
def ANGULAR_VELOCITY_INDEX : ℕ := 10

/-- `ANGULAR_VELOCITY_COUNT` from the enum. -/
def ANGULAR_VELOCITY_COUNT : ℕ := 3

end FullRigidBodySystemTypes

open FullRigidBodySystemTypes

/-- Modelled from the spec: the parent class `RigidBodySystem`
(`rigid_body_system.hpp` is not under `src/`; only this header includes
it).  Per the spec it carries the flat state vector handed to the `Base`
constructor together with the body count, and exposes state-size and
body-count queries.  `FullRigidBodySystem` adds no data of its own, so we
model the derived class directly as this record. -/
structure FullRigidBodySystem where
  state : List ℚ
  count_bodies : ℕ
deriving DecidableEq, Repr

namespace FullRigidBodySystem

/-- Modelled from Eigen: `Eigen::Quaterniond` stores its coefficients in
scalar-last order x, y, z, w (`coeffs()` returns `[x, y, z, w]`). -/
structure Quaterniond where
  x : ℚ
  y : ℚ
  z : ℚ
  w : ℚ
deriving DecidableEq, Repr

/-- Modelled from Eigen: `Quaterniond::Identity()` is w = 1, x = y = z = 0. -/
def Quaterniond.identity : Quaterniond := ⟨0, 0, 0, 1⟩

/-- Modelled from Eigen: `coeffs()` lists the coefficients scalar-last. -/
def Quaterniond.coeffs (q : Quaterniond) : List ℚ := [q.x, q.y, q.z, q.w]

/-- Modelled from Eigen: the `Quaterniond(Vector4d)` constructor reads the
four entries as coefficients in scalar-last order x, y, z, w. -/
def Quaterniond.ofVector4 (v : List ℚ) : Quaterniond :=
  ⟨v.getD 0 0, v.getD 1 0, v.getD 2 0, v.getD 3 0⟩

/-- Component `j` of the flat state vector (reads of a well-formed state
are always in range; `getD` totalizes the Eigen coefficient access). -/
def stateAt (s : FullRigidBodySystem) (j : ℕ) : ℚ := s.state.getD j 0

/-- `countState()` (delegates to the base query: the state vector size). -/
def countState (s : FullRigidBodySystem) : ℕ := s.state.length

/-- `countBodies()` (delegates to the base query: the stored body count). -/
def countBodies (s : FullRigidBodySystem) : ℕ := s.count_bodies

/-- The loop body of `reset_quaternions`, unrolled over the first `n`
bodies: `middleRows<4>(i * COUNT_PER_BODY + 3) = Quaterniond::Identity().coeffs()`
for every `i < n`. -/
def resetQuaternionsAux (l : List ℚ) (n : ℕ) : List ℚ :=
  match n with
  | 0 => l
  | m + 1 =>
      writeBlock (resetQuaternionsAux l m)
        (m * COUNT_PER_BODY + ORIENTATION_INDEX) Quaterniond.identity.coeffs

/-- `reset_quaternions()`: write the identity quaternion coefficients into
every body's orientation block. -/
def reset_quaternions (s : FullRigidBodySystem) : FullRigidBodySystem :=
  { s with state := resetQuaternionsAux s.state s.count_bodies }

/-- Constructor for static size without initial value: zero state of size
`SIZE_STATE = body_size * COUNT_PER_BODY`, then `reset_quaternions()`. -/
def mkFixed (body_size : ℕ) : FullRigidBodySystem :=
  reset_quaternions ⟨List.replicate (body_size * COUNT_PER_BODY) 0, body_size⟩

/-- Constructor for dynamic size without initial value: zero state of size
`count_bodies * COUNT_PER_BODY`, then `reset_quaternions()`. -/
def mkDynamic (count_bodies : ℕ) : FullRigidBodySystem :=
  reset_quaternions ⟨List.replicate (count_bodies * COUNT_PER_BODY) 0, count_bodies⟩

/-- Constructor with initial value: stores the given flat vector and the
body count `rows / COUNT_PER_BODY` (truncating integer division).  Note:
this constructor performs no divisibility check and does not call
`reset_quaternions()`. -/
def mkFromVector (v : List ℚ) : FullRigidBodySystem :=
  ⟨v, v.length / COUNT_PER_BODY⟩

/-- `get_position`: `middleRows<POSITION_COUNT>(i * COUNT_PER_BODY + POSITION_INDEX)`. -/
def get_position (s : FullRigidBodySystem) (i : ℕ) : List ℚ :=
  (List.range POSITION_COUNT).map
    (fun k => s.stateAt (i * COUNT_PER_BODY + POSITION_INDEX + k))

/-- `get_orientation`: `middleRows<ORIENTATION_COUNT>(i * COUNT_PER_BODY + ORIENTATION_INDEX)`. -/
def get_orientation (s : FullRigidBodySystem) (i : ℕ) : List ℚ :=
  (List.range ORIENTATION_COUNT).map
    (fun k => s.stateAt (i * COUNT_PER_BODY + ORIENTATION_INDEX + k))

/-- `get_quaternion`: `Quaterniond(get_orientation(i))`. -/
def get_quaternion (s : FullRigidBodySystem) (i : ℕ) : Quaterniond :=
  Quaterniond.ofVector4 (s.get_orientation i)

/-- `get_linear_velocity`. -/
def get_linear_velocity (s : FullRigidBodySystem) (i : ℕ) : List ℚ :=
  (List.range LINEAR_VELOCITY_COUNT).map
    (fun k => s.stateAt (i * COUNT_PER_BODY + LINEAR_VELOCITY_INDEX + k))

/-- `get_angular_velocity`. -/
def get_angular_velocity (s : FullRigidBodySystem) (i : ℕ) : List ℚ :=
  (List.range ANGULAR_VELOCITY_COUNT).map
    (fun k => s.stateAt (i * COUNT_PER_BODY + ANGULAR_VELOCITY_INDEX + k))

/-- Read through the writable view `position(i)` (a
`VectorBlock<StateVector, POSITION_COUNT>` anchored at
`i * COUNT_PER_BODY + POSITION_INDEX`). -/
def position (s : FullRigidBodySystem) (i : ℕ) : List ℚ :=
  (List.range POSITION_COUNT).map
    (fun k => s.stateAt (i * COUNT_PER_BODY + POSITION_INDEX + k))

/-- Read through the writable view `orientation(i)`. -/
def orientation (s : FullRigidBodySystem) (i : ℕ) : List ℚ :=
  (List.range ORIENTATION_COUNT).map
    (fun k => s.stateAt (i * COUNT_PER_BODY + ORIENTATION_INDEX + k))

/-- Read through the writable view `linear_velocity(i)`. -/
def linear_velocity (s : FullRigidBodySystem) (i : ℕ) : List ℚ :=
  (List.range LINEAR_VELOCITY_COUNT).map
    (fun k => s.stateAt (i * COUNT_PER_BODY + LINEAR_VELOCITY_INDEX + k))

/-- Read through the writable view `angular_velocity(i)`. -/
def angular_velocity (s : FullRigidBodySystem) (i : ℕ) : List ℚ :=
  (List.range ANGULAR_VELOCITY_COUNT).map
    (fun k => s.stateAt (i * COUNT_PER_BODY + ANGULAR_VELOCITY_INDEX + k))

/-- Read through the per-body aggregate view `operator[](i)` (a
`VectorBlock<StateVector, COUNT_PER_BODY>` anchored at `i * COUNT_PER_BODY`). -/
def bodyBlock (s : FullRigidBodySystem) (i : ℕ) : List ℚ :=
  (List.range COUNT_PER_BODY).map (fun k => s.stateAt (i * COUNT_PER_BODY + k))

/-- Write through the view `position(i)`. -/
def position_set (s : FullRigidBodySystem) (i : ℕ) (vals : List ℚ) :
    FullRigidBodySystem :=
  { s with state := writeBlock s.state (i * COUNT_PER_BODY + POSITION_INDEX) vals }

/-- Write through the view `orientation(i)`. -/
def orientation_set (s : FullRigidBodySystem) (i : ℕ) (vals : List ℚ) :
    FullRigidBodySystem :=
  { s with state := writeBlock s.state (i * COUNT_PER_BODY + ORIENTATION_INDEX) vals }

/-- Write through the view `linear_velocity(i)`. -/
def linear_velocity_set (s : FullRigidBodySystem) (i : ℕ) (vals : List ℚ) :
    FullRigidBodySystem :=
  { s with state := writeBlock s.state (i * COUNT_PER_BODY + LINEAR_VELOCITY_INDEX) vals }

/-- Write through the view `angular_velocity(i)`. -/
def angular_velocity_set (s : FullRigidBodySystem) (i : ℕ) (vals : List ℚ) :
    FullRigidBodySystem :=
  { s with state := writeBlock s.state (i * COUNT_PER_BODY + ANGULAR_VELOCITY_INDEX) vals }

/-- Write through the aggregate view `operator[](i)`. -/
def bodyBlock_set (s : FullRigidBodySystem) (i : ℕ) (vals : List ℚ) :
    FullRigidBodySystem :=
  { s with state := writeBlock s.state (i * COUNT_PER_BODY) vals }

/-- Squared Euclidean norm of a 4-component block (unit norm of a
quaternion block is `normSq4 = 1`). -/
def normSq4 (l : List ℚ) : ℚ :=
  l.getD 0 0 * l.getD 0 0 + l.getD 1 0 * l.getD 1 0 +
  l.getD 2 0 * l.getD 2 0 + l.getD 3 0 * l.getD 3 0

end FullRigidBodySystem

namespace dbot

/-- Eigen `Vector3d` over ℚ. -/
structure Vector3d where
  x : ℚ
  y : ℚ
  z : ℚ
deriving DecidableEq, Repr

/-- Eigen `Matrix3d` over ℚ, stored as three rows. -/
structure Matrix3d where
  r0 : Vector3d
  r1 : Vector3d
  r2 : Vector3d
deriving DecidableEq, Repr

def Vector3d.zero : Vector3d := ⟨0, 0, 0⟩

def Vector3d.add (a b : Vector3d) : Vector3d := ⟨a.x + b.x, a.y + b.y, a.z + b.z⟩

def Vector3d.sub (a b : Vector3d) : Vector3d := ⟨a.x - b.x, a.y - b.y, a.z - b.z⟩

def Vector3d.dot (a b : Vector3d) : ℚ := a.x * b.x + a.y * b.y + a.z * b.z

def Vector3d.cross (a b : Vector3d) : Vector3d :=
  ⟨a.y * b.z - a.z * b.y, a.z * b.x - a.x * b.z, a.x * b.y - a.y * b.x⟩

def Matrix3d.identity : Matrix3d := ⟨⟨1, 0, 0⟩, ⟨0, 1, 0⟩, ⟨0, 0, 1⟩⟩

def Matrix3d.mulVec (m : Matrix3d) (v : Vector3d) : Vector3d :=
  ⟨m.r0.dot v, m.r1.dot v, m.r2.dot v⟩

def Matrix3d.det (m : Matrix3d) : ℚ :=
  m.r0.x * (m.r1.y * m.r2.z - m.r1.z * m.r2.y) -
  m.r0.y * (m.r1.x * m.r2.z - m.r1.z * m.r2.x) +
  m.r0.z * (m.r1.x * m.r2.y - m.r1.y * m.r2.x)

/-- Matrix inverse by the adjugate formula (ℚ division by a zero
determinant yields the zero matrix; the intrinsic matrix of a real camera
is invertible). -/
def Matrix3d.inv (m : Matrix3d) : Matrix3d :=
  let d := m.det
  ⟨⟨(m.r1.y * m.r2.z - m.r1.z * m.r2.y) / d,
    (m.r0.z * m.r2.y - m.r0.y * m.r2.z) / d,
    (m.r0.y * m.r1.z - m.r0.z * m.r1.y) / d⟩,
   ⟨(m.r1.z * m.r2.x - m.r1.x * m.r2.z) / d,
    (m.r0.x * m.r2.z - m.r0.z * m.r2.x) / d,
    (m.r0.z * m.r1.x - m.r0.x * m.r1.z) / d⟩,
   ⟨(m.r1.x * m.r2.y - m.r1.y * m.r2.x) / d,
    (m.r0.y * m.r2.x - m.r0.x * m.r2.y) / d,
    (m.r0.x * m.r1.y - m.r0.y * m.r1.x) / d⟩⟩

/-- A camera-space triangle: its three posed vertices. -/
def Triangle := Vector3d × Vector3d × Vector3d

instance : DecidableEq Triangle := by
  unfold Triangle; exact inferInstance

/-- A body's pose applied to a local vertex: `R * v + t`. -/
def posedVertex (Rm : Matrix3d) (tv : Vector3d) (v : Vector3d) : Vector3d :=
  Vector3d.add (Rm.mulVec v) tv

/-- Modelled from the spec: the error taxonomy of the error-handling
design (`InvalidArgument`, `PreconditionViolation`); the renderer's
implementation file is not under `src/`. -/
inductive RenderError where
  | InvalidArgument
  | PreconditionViolation
deriving DecidableEq, Repr

/-- The renderer state (`rigid_body_renderer.hpp` data members): cached
camera intrinsics and resolution, the per-body mesh geometry, and the
current per-body poses.  The derived caches (`normals_`, `coms_`,
`com_weights_`) are omitted: no operation modelled here reads them. -/
structure RigidBodyRenderer where
  camera_matrix : Matrix3d
  n_rows : ℕ
  n_cols : ℕ
  vertices : List (List Vector3d)
  indices : List (List (List ℕ))
  R : List Matrix3d
  t : List Vector3d
deriving DecidableEq, Repr

/-- The body count of the renderer's mesh set. -/
def RigidBodyRenderer.bodyCount (r : RigidBodyRenderer) : ℕ := r.vertices.length

/-- Modelled from the spec: `set_poses(rotations, translations)` replaces
the current pose for every body; both sequences must have length equal to
the body count, else it fails with `InvalidArgument`. -/
def set_poses (r : RigidBodyRenderer) (rotations : List Matrix3d)
    (translations : List Vector3d) : Except RenderError RigidBodyRenderer :=
  if rotations.length = r.bodyCount ∧ translations.length = r.bodyCount then
    Except.ok { r with R := rotations, t := translations }
  else
    Except.error RenderError.InvalidArgument

/-- The mesh transformed into camera space with the current poses: for
body `o`, each triangle index triple is resolved against body `o`'s
vertices and posed by `R_[o], t_[o]`. -/
def posedTriangles (r : RigidBodyRenderer) : List (List Triangle) :=
  (List.range r.vertices.length).map (fun o =>
    let verts := r.vertices.getD o []
    let Rm := r.R.getD o Matrix3d.identity
    let tv := r.t.getD o Vector3d.zero
    (r.indices.getD o []).map (fun tri =>
      (posedVertex Rm tv (verts.getD (tri.getD 0 0) Vector3d.zero),
       posedVertex Rm tv (verts.getD (tri.getD 1 0) Vector3d.zero),
       posedVertex Rm tv (verts.getD (tri.getD 2 0) Vector3d.zero))))

/-- Modelled from the spec: back-projection of pixel `(row, col)` through
the inverse intrinsic matrix to a ray direction in camera space. -/
def rayDirection (K : Matrix3d) (row col : ℕ) : Vector3d :=
  K.inv.mulVec ⟨(col : ℚ), (row : ℚ), 1⟩

/-- Modelled from the spec: parametric (Moller-Trumbore style)
ray/triangle intersection for the ray from the camera origin along `dir`.
Returns the depth of the hit along the camera's forward axis (the z
coordinate of the intersection point), or `none` when the ray is parallel
to the triangle plane, the triangle is degenerate, the intersection falls
outside the triangle, or the depth is not strictly positive. -/
def intersectTriangle (dir : Vector3d) (tri : Triangle) : Option ℚ :=
  let v0 := tri.1
  let e1 := Vector3d.sub tri.2.1 v0
  let e2 := Vector3d.sub tri.2.2 v0
  let h := dir.cross e2
  let a := e1.dot h
  if a = 0 then none
  else
    let f := 1 / a
    let s := Vector3d.sub Vector3d.zero v0
    let u := f * (s.dot h)
    if u < 0 ∨ 1 < u then none
    else
      let q := s.cross e1
      let v := f * (dir.dot q)
      if v < 0 ∨ 1 < u + v then none
      else
        let tpar := f * (e2.dot q)
        let depth := tpar * dir.z
        if 0 < depth then some depth else none

/-- Fold a valid hit of body `bodyIdx` at depth `d` into the current best
`(body index, depth)`: the minimum valid depth wins, and on an exact tie
the first-encountered hit is kept (strict comparison). -/
def updateBest (best : Int × Option ℚ) (bodyIdx : Int) (d : ℚ) : Int × Option ℚ :=
  match best.2 with
  | none => (bodyIdx, some d)
  | some b => if d < b then (bodyIdx, some d) else best

/-- Scan the triangles of one body, accumulating the best hit. -/
def scanTriangles (dir : Vector3d) (bodyIdx : Int) (tris : List Triangle)
    (best : Int × Option ℚ) : Int × Option ℚ :=
  match tris with
  | [] => best
  | tri :: rest =>
      let best2 :=
        match intersectTriangle dir tri with
        | none => best
        | some d => updateBest best bodyIdx d
      scanTriangles dir bodyIdx rest best2

/-- Scan all bodies in order, accumulating the best hit. -/
def scanBodies (dir : Vector3d) (bodyIdx : Int) (bodies : List (List Triangle))
    (best : Int × Option ℚ) : Int × Option ℚ :=
  match bodies with
  | [] => best
  | b :: rest => scanBodies dir (bodyIdx + 1) rest (scanTriangles dir bodyIdx b best)

/-- Modelled from the spec: one pixel of the ray-casting kernel.  Across
all bodies and triangles the minimum valid depth is kept together with the
originating body index; a pixel with no valid intersection yields the
sentinel index `-1` and the non-finite depth marker `none`. -/
def renderPixel (bodies : List (List Triangle)) (dir : Vector3d) : Int × Option ℚ :=
  scanBodies dir 0 bodies (-1, none)

/-- Modelled from the spec: the ray-casting kernel over all pixels in
row-major order (pixel `p` is row `p / n_cols`, column `p % n_cols`). -/
def renderKernel (K : Matrix3d) (nr nc : ℕ) (bodies : List (List Triangle)) :
    List (Int × Option ℚ) :=
  (List.range (nr * nc)).map
    (fun p => renderPixel bodies (rayDirection K (p / nc) (p % nc)))

/-- `Render(camera_matrix, n_rows, n_cols, intersect_indices, depth)`:
the explicit-camera const overload; produces the per-pixel body indices
and depths and mutates nothing (its renderer argument is `const`). -/
def RenderFull (r : RigidBodyRenderer) (K : Matrix3d) (nr nc : ℕ) :
    List Int × List (Option ℚ) :=
  let px := renderKernel K nr nc (posedTriangles r)
  (px.map Prod.fst, px.map Prod.snd)

/-- `Render(camera_matrix, n_rows, n_cols, depth_image)`: same kernel,
index output omitted. -/
def RenderDepthCam (r : RigidBodyRenderer) (K : Matrix3d) (nr nc : ℕ) :
    List (Option ℚ) :=
  (RenderFull r K nr nc).2

/-- `Render(depth_image)`: renders with the cached camera matrix and
resolution. -/
def RenderDepth (r : RigidBodyRenderer) : List (Option ℚ) :=
  RenderDepthCam r r.camera_matrix r.n_rows r.n_cols

/-- A call to a const `Render` overload, modelled as outputs paired with
the renderer state after the call (`const`: unchanged). -/
def RenderCall (r : RigidBodyRenderer) (K : Matrix3d) (nr nc : ℕ) :
    (List Int × List (Option ℚ)) × RigidBodyRenderer :=
  (RenderFull r K nr nc, r)

/-- The generic pose source of the template `Render(state, ...)` overloads:
any object exposing `count_parts()` and, per part,
`component(i).orientation().rotation_matrix()` and `component(i).position()`.
Each part is its extracted rotation matrix and position. -/
structure RigidbodyState where
  parts : List (Matrix3d × Vector3d)
deriving DecidableEq, Repr

def RigidbodyState.count_parts (s : RigidbodyState) : ℕ := s.parts.length

/-- The renderer with the poses extracted from a state installed
(the effect of the `set_poses` call inside the generic `Render`). -/
def withStatePoses (r : RigidBodyRenderer) (s : RigidbodyState) : RigidBodyRenderer :=
  { r with R := s.parts.map Prod.fst, t := s.parts.map Prod.snd }

/-- Template `Render(state, depth_vector)`: extract one rotation matrix
and one translation vector per part in part order, call `set_poses`, then
render with the cached camera matrix and resolution. -/
def RenderState (r : RigidBodyRenderer) (s : RigidbodyState) :
    Except RenderError (RigidBodyRenderer × List (Option ℚ)) :=
  let rotations := s.parts.map Prod.fst
  let translations := s.parts.map Prod.snd
  match set_poses r rotations translations with
  | Except.error e => Except.error e
  | Except.ok r2 => Except.ok (r2, RenderDepthCam r2 r2.camera_matrix r2.n_rows r2.n_cols)

/-- Template `Render(state, Eigen::VectorXd, bad_value)`: render to the
raw depth vector, then copy each pixel, substituting `bad_value` for every
non-finite sample (`none` in the `Option ℚ` model; a `bad_value` of `none`
is the default, positive infinity). -/
def RenderVectorXd (r : RigidBodyRenderer) (s : RigidbodyState) (bad : Option ℚ) :
    Except RenderError (RigidBodyRenderer × List (Option ℚ)) :=
  match RenderState r s with
  | Except.error e => Except.error e
  | Except.ok (r2, depth) =>
      Except.ok (r2, depth.map (fun d =>
        match d with
        | some v => some v
        | none => bad))

/-- Template `Render(state, Eigen::VectorXf, bad_value)`: as the source
writes it, every non-finite sample is replaced by the literal
`std::numeric_limits<float>::infinity()` (`none`); the `bad` parameter is
accepted but never read. -/
def RenderVectorXf (r : RigidBodyRenderer) (s : RigidbodyState) (bad : Option ℚ) :
    Except RenderError (RigidBodyRenderer × List (Option ℚ)) :=
  match RenderState r s with
  | Except.error e => Except.error e
  | Except.ok (r2, depth) =>
      Except.ok (r2, depth.map (fun d =>
        match d with
        | some v => some v
        | none => none))

end dbot

namespace FullRigidBodySystem

theorem length_writeBlock (vals : List ℚ) (l : List ℚ) (start : ℕ) :
    (writeBlock l start vals).length = l.length := by
  induction vals generalizing l start with
  | nil => rfl
  | cons v rest ih => simp [writeBlock, ih]

theorem getD_writeBlock_out (vals : List ℚ) (l : List ℚ) (start j : ℕ)
    (h : j < start ∨ start + vals.length ≤ j) :
    (writeBlock l start vals).getD j 0 = l.getD j 0 := by
  induction vals generalizing l start with
  | nil => rfl
  | cons v rest ih =>
      have hne : start ≠ j := by
        rcases h with h | h
        · omega
        · simp at h; omega
      have hstep : (l.set start v).getD j 0 = l.getD j 0 := by
        simp [List.getD_eq_getElem?_getD, List.getElem?_set_ne hne]
      calc (writeBlock (l.set start v) (start + 1) rest).getD j 0
          = (l.set start v).getD j 0 := by
            apply ih
            rcases h with h | h
            · exact Or.inl (by omega)
            · exact Or.inr (by simp at h ⊢; omega)
        _ = l.getD j 0 := hstep

theorem getD_writeBlock_in (vals : List ℚ) (l : List ℚ) (start k : ℕ)
    (hlen : start + vals.length ≤ l.length) (hk : k < vals.length) :
    (writeBlock l start vals).getD (start + k) 0 = vals.getD k 0 := by
  induction vals generalizing l start k with
  | nil => simp at hk
  | cons v rest ih =>
      match k with
      | 0 =>
          have hlt : start < l.length := by simp at hlen; omega
          have hset : (l.set start v).getD start 0 = v := by
            simp [List.getD_eq_getElem?_getD, List.getElem?_set_eq_of_lt v hlt]
          have hout : (writeBlock (l.set start v) (start + 1) rest).getD start 0
              = (l.set start v).getD start 0 :=
            getD_writeBlock_out rest (l.set start v) (start + 1) start (Or.inl (by omega))
          rw [hset] at hout
          show (writeBlock (l.set start v) (start + 1) rest).getD (start + 0) 0
              = (v :: rest).getD 0 0
          simpa using hout
      | k + 1 =>
          have hlen2 : (start + 1) + rest.length ≤ (l.set start v).length := by
            simp at hlen ⊢; omega
          have := ih (l.set start v) (start + 1) k hlen2 (by simp at hk; omega)
          have harith : start + (k + 1) = (start + 1) + k := by omega
          simpa [writeBlock, harith] using this

theorem length_resetQuaternionsAux (l : List ℚ) (n : ℕ) :
    (resetQuaternionsAux l n).length = l.length := by
  induction n with
  | zero => rfl
  | succ m ih => simp [resetQuaternionsAux, length_writeBlock, ih]

theorem getD_resetQuaternionsAux_out (l : List ℚ) (n j : ℕ)
    (h : ∀ b, b < n → j < b * 13 + 3 ∨ b * 13 + 7 ≤ j) :
    (resetQuaternionsAux l n).getD j 0 = l.getD j 0 := by
  induction n with
  | zero => rfl
  | succ m ih =>
      have hm := h m (by omega)
      have hout : j < m * COUNT_PER_BODY + ORIENTATION_INDEX ∨
          (m * COUNT_PER_BODY + ORIENTATION_INDEX) + Quaterniond.identity.coeffs.length ≤ j := by
        simp [COUNT_PER_BODY, ORIENTATION_INDEX, Quaterniond.identity, Quaterniond.coeffs]
        omega
      calc (resetQuaternionsAux l (m + 1)).getD j 0
          = (resetQuaternionsAux l m).getD j 0 :=
            getD_writeBlock_out _ _ _ _ hout
        _ = l.getD j 0 := ih (fun b hb => h b (by omega))

theorem getD_resetQuaternionsAux_quat (l : List ℚ) (n i k : ℕ)
    (hin : i < n) (hlen : n * 13 ≤ l.length) (hk : k < 4) :
    (resetQuaternionsAux l n).getD (i * 13 + 3 + k) 0 =
      Quaterniond.identity.coeffs.getD k 0 := by
  induction n with
  | zero => omega
  | succ m ih =>
      by_cases hcase : i < m
      · have hout : i * 13 + 3 + k < m * COUNT_PER_BODY + ORIENTATION_INDEX ∨
            (m * COUNT_PER_BODY + ORIENTATION_INDEX) + Quaterniond.identity.coeffs.length
              ≤ i * 13 + 3 + k := by
          simp [COUNT_PER_BODY, ORIENTATION_INDEX, Quaterniond.identity, Quaterniond.coeffs]
          omega
        calc (resetQuaternionsAux l (m + 1)).getD (i * 13 + 3 + k) 0
            = (resetQuaternionsAux l m).getD (i * 13 + 3 + k) 0 :=
              getD_writeBlock_out _ _ _ _ hout
          _ = Quaterniond.identity.coeffs.getD k 0 := ih hcase (by omega)
      · have hieq : i = m := by omega
        subst hieq
        have hlen2 : (i * COUNT_PER_BODY + ORIENTATION_INDEX) +
            Quaterniond.identity.coeffs.length ≤ (resetQuaternionsAux l i).length := by
          simp [COUNT_PER_BODY, ORIENTATION_INDEX, Quaterniond.identity, Quaterniond.coeffs,
            length_resetQuaternionsAux]
          omega
        have := getD_writeBlock_in Quaterniond.identity.coeffs (resetQuaternionsAux l i)
          (i * COUNT_PER_BODY + ORIENTATION_INDEX) k hlen2
          (by simp [Quaterniond.identity, Quaterniond.coeffs]; omega)
        have harith : i * COUNT_PER_BODY + ORIENTATION_INDEX + k = i * 13 + 3 + k := by
          simp [COUNT_PER_BODY, ORIENTATION_INDEX]
        simpa [resetQuaternionsAux, harith] using this

end FullRigidBodySystem

namespace FullRigidBodySystem

theorem mkFixed_eq_mkDynamic (n : ℕ) : mkFixed n = mkDynamic n := rfl

theorem stateAt_mkDynamic_quat (n i k : ℕ) (h : i < n) (hk : k < 4) :
    (mkDynamic n).stateAt (i * 13 + 3 + k) = Quaterniond.identity.coeffs.getD k 0 := by
  unfold mkDynamic reset_quaternions stateAt
  exact getD_resetQuaternionsAux_quat _ n i k h (by simp [COUNT_PER_BODY]) hk

theorem stateAt_mkDynamic_out (n j : ℕ)
    (h : ∀ b, b < n → j < b * 13 + 3 ∨ b * 13 + 7 ≤ j) :
    (mkDynamic n).stateAt j = 0 := by
  unfold mkDynamic reset_quaternions stateAt
  rw [getD_resetQuaternionsAux_out _ _ _ h]
  simp [List.getD_eq_getElem?_getD, List.getElem?_replicate]
  split <;> rfl

theorem get_orientation_mkDynamic (n i : ℕ) (h : i < n) :
    (mkDynamic n).get_orientation i = [0, 0, 0, 1] := by
  have h0 := stateAt_mkDynamic_quat n i 0 h (by omega)
  have h1 := stateAt_mkDynamic_quat n i 1 h (by omega)
  have h2 := stateAt_mkDynamic_quat n i 2 h (by omega)
  have h3 := stateAt_mkDynamic_quat n i 3 h (by omega)
  have hrange : List.range ORIENTATION_COUNT = [0, 1, 2, 3] := by decide
  simp only [get_orientation, hrange, List.map_cons, List.map_nil, List.cons.injEq,
    and_true]
  exact ⟨h0, h1, h2, h3⟩

end FullRigidBodySystem

open FullRigidBodySystem

/-- A 13-component flat input whose orientation block is (2, 0, 0, 0):
a concrete input sequence for the constructor with initial value. -/
def c1vec : List ℚ := [0, 0, 0, 2, 0, 0, 0, 0, 0, 0, 0, 0, 0]

/-- Claim C1 (counterexample): constructing the multi-body state from an
existing flat value sequence does NOT reset the quaternion blocks: with an
orientation block (2, 0, 0, 0) in the input, the constructed state's
quaternion block is neither the identity nor unit-norm. -/
theorem claim_c1_counterexample :
    (FullRigidBodySystem.mkFromVector c1vec).get_orientation 0 ≠ [0, 0, 0, 1]
    ∧ normSq4 ((FullRigidBodySystem.mkFromVector c1vec).get_orientation 0) ≠ 1 := by
  have horient : (FullRigidBodySystem.mkFromVector c1vec).get_orientation 0
      = [2, 0, 0, 0] := by decide
  rw [horient]
  constructor
  · decide
  · norm_num [normSq4]

/-- Claim C1 (amended): for the fixed-body-count and dynamic-body-count
constructions (whose state is zero-initialized), immediately after the
constructor returns every quaternion block holds the identity rotation
(0, 0, 0, 1) and has unit norm; the constructor from an existing flat
value sequence stores the input unchanged and performs no quaternion
reset. -/
theorem claim_c1_amended (n i : ℕ) (h : i < n) (v : List ℚ) :
    (mkFixed n).get_orientation i = [0, 0, 0, 1]
    ∧ normSq4 ((mkFixed n).get_orientation i) = 1
    ∧ (mkDynamic n).get_orientation i = [0, 0, 0, 1]
    ∧ normSq4 ((mkDynamic n).get_orientation i) = 1
    ∧ (mkFromVector v).state = v := by
  have hd := get_orientation_mkDynamic n i h
  have hf : (mkFixed n).get_orientation i = [0, 0, 0, 1] := by
    rw [mkFixed_eq_mkDynamic]; exact hd
  refine ⟨hf, ?_, hd, ?_, rfl⟩
  · rw [hf]; norm_num [normSq4]
  · rw [hd]; norm_num [normSq4]

/-- Claim C1 witness: the amended claim at n = 2, i = 1, v = [5]. -/
theorem claim_c1_witness :
    1 < 2
    ∧ ((mkFixed 2).get_orientation 1 = [0, 0, 0, 1]
    ∧ normSq4 ((mkFixed 2).get_orientation 1) = 1
    ∧ (mkDynamic 2).get_orientation 1 = [0, 0, 0, 1]
    ∧ normSq4 ((mkDynamic 2).get_orientation 1) = 1
    ∧ (mkFromVector [5]).state = [5]) :=
  ⟨by decide, claim_c1_amended 2 1 (by decide) [5]⟩

/-- Claim C2 (counterexample): constructing from a flat sequence of
length 14 — not a multiple of 13 — does not fail: it yields an ordinary
state with body count 14 / 13 = 1 and the full 14-component state, so
body-count × 13 differs from the state size. -/
theorem claim_c2_counterexample :
    (FullRigidBodySystem.mkFromVector (List.replicate 14 0)).countBodies = 1
    ∧ (FullRigidBodySystem.mkFromVector (List.replicate 14 0)).countState = 14
    ∧ ¬(14 % 13 = 0)
    ∧ (FullRigidBodySystem.mkFromVector (List.replicate 14 0)).countBodies * 13 ≠
        (FullRigidBodySystem.mkFromVector (List.replicate 14 0)).countState := by
  decide

/-- Claim C2 (amended): construction from a flat value sequence never
fails; the body count is inferred as length / 13 with truncating integer
division (so it equals length / 13 exactly when the length is a multiple
of 13), and the sequence is stored unchanged. -/
theorem claim_c2_amended (v : List ℚ) :
    (mkFromVector v).countBodies = v.length / 13
    ∧ (mkFromVector v).state = v :=
  ⟨rfl, rfl⟩

/-- Claim C4: every accessor addresses the canonical fixed layout -
position(i) reads flat indices 13i..13i+2, orientation(i) reads
13i+3..13i+6, linear_velocity(i) reads 13i+7..13i+9, angular_velocity(i)
reads 13i+10..13i+12, the aggregate per-body block reads the 13 components
starting at 13i, and the get-style queries return the same components as
the corresponding views. -/
theorem claim_c4_layout (s : FullRigidBodySystem) (i : ℕ) :
    s.position i = (List.range 3).map (fun k => s.stateAt (13 * i + k))
    ∧ s.orientation i = (List.range 4).map (fun k => s.stateAt (13 * i + 3 + k))
    ∧ s.linear_velocity i = (List.range 3).map (fun k => s.stateAt (13 * i + 7 + k))
    ∧ s.angular_velocity i = (List.range 3).map (fun k => s.stateAt (13 * i + 10 + k))
    ∧ s.bodyBlock i = (List.range 13).map (fun k => s.stateAt (13 * i + k))
    ∧ s.get_position i = s.position i
    ∧ s.get_orientation i = s.orientation i
    ∧ s.get_linear_velocity i = s.linear_velocity i
    ∧ s.get_angular_velocity i = s.angular_velocity i := by
  refine ⟨?_, ?_, ?_, ?_, ?_, rfl, rfl, rfl, rfl⟩
  · exact List.map_congr_left (fun k _ => congrArg s.stateAt
      (by unfold COUNT_PER_BODY POSITION_INDEX; omega))
  · exact List.map_congr_left (fun k _ => congrArg s.stateAt
      (by unfold COUNT_PER_BODY ORIENTATION_INDEX; omega))
  · exact List.map_congr_left (fun k _ => congrArg s.stateAt
      (by unfold COUNT_PER_BODY LINEAR_VELOCITY_INDEX; omega))
  · exact List.map_congr_left (fun k _ => congrArg s.stateAt
      (by unfold COUNT_PER_BODY ANGULAR_VELOCITY_INDEX; omega))
  · exact List.map_congr_left (fun k _ => congrArg s.stateAt
      (by unfold COUNT_PER_BODY; omega))

/-- Claim C5: for every valid construction (the zero-initialized
constructors for any body count, and the flat-sequence constructor on a
sequence whose length is a multiple of 13), body count × 13 equals the
state size reported by countState. -/
theorem claim_c5_size (n : ℕ) (v : List ℚ) (hv : 13 ∣ v.length) :
    (mkFixed n).countBodies * 13 = (mkFixed n).countState
    ∧ (mkDynamic n).countBodies * 13 = (mkDynamic n).countState
    ∧ (mkFromVector v).countBodies * 13 = (mkFromVector v).countState := by
  refine ⟨?_, ?_, ?_⟩
  · simp [mkFixed, reset_quaternions, countState, countBodies,
      length_resetQuaternionsAux, COUNT_PER_BODY]
  · simp [mkDynamic, reset_quaternions, countState, countBodies,
      length_resetQuaternionsAux, COUNT_PER_BODY]
  · show v.length / COUNT_PER_BODY * 13 = v.length
    unfold COUNT_PER_BODY
    exact Nat.div_mul_cancel hv

/-- Claim C5 witness: the size identity at n = 2 and a flat sequence of
length 26. -/
theorem claim_c5_witness :
    13 ∣ (List.replicate 26 (0 : ℚ)).length
    ∧ ((mkFixed 2).countBodies * 13 = (mkFixed 2).countState
    ∧ (mkDynamic 2).countBodies * 13 = (mkDynamic 2).countState
    ∧ (mkFromVector (List.replicate 26 (0 : ℚ))).countBodies * 13 =
        (mkFromVector (List.replicate 26 (0 : ℚ))).countState) :=
  ⟨by decide, claim_c5_size 2 (List.replicate 26 0) (by decide)⟩

/-- Claim C9: each writable accessor view writes only the flat components
of its own offset range inside body i's 13-component block and leaves
every other flat component unchanged; the construction-time quaternion
reset writes only components 13b+3..13b+6 of each body b, so the
zero-initialized positions and velocities of the zero constructors remain
zero. -/
theorem claim_c9_frame (s : FullRigidBodySystem) (i j : ℕ) :
    (∀ vals : List ℚ, vals.length = 3 → j < 13 * i ∨ 13 * i + 3 ≤ j →
        (s.position_set i vals).stateAt j = s.stateAt j)
    ∧ (∀ vals : List ℚ, vals.length = 4 → j < 13 * i + 3 ∨ 13 * i + 7 ≤ j →
        (s.orientation_set i vals).stateAt j = s.stateAt j)
    ∧ (∀ vals : List ℚ, vals.length = 3 → j < 13 * i + 7 ∨ 13 * i + 10 ≤ j →
        (s.linear_velocity_set i vals).stateAt j = s.stateAt j)
    ∧ (∀ vals : List ℚ, vals.length = 3 → j < 13 * i + 10 ∨ 13 * i + 13 ≤ j →
        (s.angular_velocity_set i vals).stateAt j = s.stateAt j)
    ∧ (∀ vals : List ℚ, vals.length = 13 → j < 13 * i ∨ 13 * i + 13 ≤ j →
        (s.bodyBlock_set i vals).stateAt j = s.stateAt j)
    ∧ ((∀ b, b < s.countBodies → j < 13 * b + 3 ∨ 13 * b + 7 ≤ j) →
        s.reset_quaternions.stateAt j = s.stateAt j)
    ∧ (∀ n, (∀ b, b < n → j < 13 * b + 3 ∨ 13 * b + 7 ≤ j) →
        (mkDynamic n).stateAt j = 0) := by
  refine ⟨?_, ?_, ?_, ?_, ?_, ?_, ?_⟩
  · intro vals hl hj
    unfold position_set stateAt
    exact getD_writeBlock_out vals s.state _ j
      (by unfold COUNT_PER_BODY POSITION_INDEX; omega)
  · intro vals hl hj
    unfold orientation_set stateAt
    exact getD_writeBlock_out vals s.state _ j
      (by unfold COUNT_PER_BODY ORIENTATION_INDEX; omega)
  · intro vals hl hj
    unfold linear_velocity_set stateAt
    exact getD_writeBlock_out vals s.state _ j
      (by unfold COUNT_PER_BODY LINEAR_VELOCITY_INDEX; omega)
  · intro vals hl hj
    unfold angular_velocity_set stateAt
    exact getD_writeBlock_out vals s.state _ j
      (by unfold COUNT_PER_BODY ANGULAR_VELOCITY_INDEX; omega)
  · intro vals hl hj
    unfold bodyBlock_set stateAt
    exact getD_writeBlock_out vals s.state _ j (by unfold COUNT_PER_BODY; omega)
  · intro h
    unfold reset_quaternions stateAt
    exact getD_resetQuaternionsAux_out s.state s.count_bodies j
      (fun b hb => by have := h b hb; omega)
  · intro n h
    exact stateAt_mkDynamic_out n j (fun b hb => by have := h b hb; omega)

/-- Claim C9 witness: the frame property sampled on a two-body state
(all components 5) at i = 0 and the out-of-block flat index j = 13, with
concrete written values; and the zero constructor at n = 2, j = 0. -/
theorem claim_c9_witness :
    ((FullRigidBodySystem.mkFromVector (List.replicate 26 5)).position_set 0
        [1, 2, 3]).stateAt 13 =
      (FullRigidBodySystem.mkFromVector (List.replicate 26 5)).stateAt 13
    ∧ ((FullRigidBodySystem.mkFromVector (List.replicate 26 5)).orientation_set 0
        [1, 2, 3, 4]).stateAt 13 =
      (FullRigidBodySystem.mkFromVector (List.replicate 26 5)).stateAt 13
    ∧ ((FullRigidBodySystem.mkFromVector (List.replicate 26 5)).linear_velocity_set 0
        [1, 2, 3]).stateAt 13 =
      (FullRigidBodySystem.mkFromVector (List.replicate 26 5)).stateAt 13
    ∧ ((FullRigidBodySystem.mkFromVector (List.replicate 26 5)).angular_velocity_set 0
        [1, 2, 3]).stateAt 13 =
      (FullRigidBodySystem.mkFromVector (List.replicate 26 5)).stateAt 13
    ∧ ((FullRigidBodySystem.mkFromVector (List.replicate 26 5)).bodyBlock_set 0
        [1, 2, 3, 4, 5, 6, 7, 8, 9, 10, 11, 12, 13]).stateAt 13 =
      (FullRigidBodySystem.mkFromVector (List.replicate 26 5)).stateAt 13
    ∧ (FullRigidBodySystem.mkFromVector (List.replicate 26 5)).reset_quaternions.stateAt 13 =
      (FullRigidBodySystem.mkFromVector (List.replicate 26 5)).stateAt 13
    ∧ (mkDynamic 2).stateAt 0 = 0 :=
  ⟨(claim_c9_frame (FullRigidBodySystem.mkFromVector (List.replicate 26 5)) 0 13).1
      [1, 2, 3] (by decide) (by decide),
   (claim_c9_frame (FullRigidBodySystem.mkFromVector (List.replicate 26 5)) 0 13).2.1
      [1, 2, 3, 4] (by decide) (by decide),
   (claim_c9_frame (FullRigidBodySystem.mkFromVector (List.replicate 26 5)) 0 13).2.2.1
      [1, 2, 3] (by decide) (by decide),
   (claim_c9_frame (FullRigidBodySystem.mkFromVector (List.replicate 26 5)) 0 13).2.2.2.1
      [1, 2, 3] (by decide) (by decide),
   (claim_c9_frame (FullRigidBodySystem.mkFromVector (List.replicate 26 5)) 0 13).2.2.2.2.1
      [1, 2, 3, 4, 5, 6, 7, 8, 9, 10, 11, 12, 13] (by decide) (by decide),
   (claim_c9_frame (FullRigidBodySystem.mkFromVector (List.replicate 26 5)) 0 13).2.2.2.2.2.1
      (by decide),
   (claim_c9_frame (FullRigidBodySystem.mkFromVector (List.replicate 26 5)) 0 13).2.2.2.2.2.2
      2 (by decide)⟩

/-- Claim C10: the quaternion block is stored scalar-last (x, y, z, w):
get_quaternion(i) builds the quaternion directly from the raw orientation
block read in that coefficient order, and after zero-initialized
construction the identity rotation is stored as the flat values
(0, 0, 0, 1), not (1, 0, 0, 0). -/
theorem claim_c10_scalar_last (s : FullRigidBodySystem) (i n b : ℕ) (hb : b < n) :
    s.get_quaternion i =
      ⟨s.stateAt (13 * i + 3), s.stateAt (13 * i + 4),
       s.stateAt (13 * i + 5), s.stateAt (13 * i + 6)⟩
    ∧ (mkDynamic n).get_orientation b = [0, 0, 0, 1]
    ∧ (mkDynamic n).get_orientation b ≠ [1, 0, 0, 0]
    ∧ (mkDynamic n).get_quaternion b = Quaterniond.identity := by
  have hd := get_orientation_mkDynamic n b hb
  refine ⟨?_, hd, ?_, ?_⟩
  · have hrange : List.range ORIENTATION_COUNT = [0, 1, 2, 3] := by decide
    simp only [get_quaternion, Quaterniond.ofVector4, get_orientation, hrange,
      List.map_cons, List.map_nil, List.getD_cons_zero, List.getD_cons_succ,
      Quaterniond.mk.injEq]
    refine ⟨?_, ?_, ?_, ?_⟩ <;>
      exact congrArg s.stateAt (by unfold COUNT_PER_BODY ORIENTATION_INDEX; omega)
  · rw [hd]; decide
  · unfold get_quaternion
    rw [hd]
    decide

/-- Claim C10 witness: the scalar-last reading on a concrete state (the
13-component counterexample vector, whose orientation block is 2,0,0,0)
and the stored identity at n = 1, b = 0. -/
theorem claim_c10_witness :
    0 < 1
    ∧ ((FullRigidBodySystem.mkFromVector c1vec).get_quaternion 0 =
        ⟨(FullRigidBodySystem.mkFromVector c1vec).stateAt 3,
         (FullRigidBodySystem.mkFromVector c1vec).stateAt 4,
         (FullRigidBodySystem.mkFromVector c1vec).stateAt 5,
         (FullRigidBodySystem.mkFromVector c1vec).stateAt 6⟩
    ∧ (mkDynamic 1).get_orientation 0 = [0, 0, 0, 1]
    ∧ (mkDynamic 1).get_orientation 0 ≠ [1, 0, 0, 0]
    ∧ (mkDynamic 1).get_quaternion 0 = Quaterniond.identity) :=
  ⟨by decide,
   claim_c10_scalar_last (FullRigidBodySystem.mkFromVector c1vec) 0 1 0 (by decide)⟩

namespace dbot

theorem scanTriangles_miss (dir : Vector3d) (bodyIdx : Int) (tris : List Triangle)
    (best : Int × Option ℚ) (h : ∀ tri ∈ tris, intersectTriangle dir tri = none) :
    scanTriangles dir bodyIdx tris best = best := by
  induction tris generalizing best with
  | nil => rfl
  | cons t rest ih =>
      have ht := h t (by simp)
      show scanTriangles dir bodyIdx rest
          (match intersectTriangle dir t with
           | none => best
           | some d => updateBest best bodyIdx d) = best
      rw [ht]
      exact ih best (fun tri htri => h tri (by simp [htri]))

theorem scanBodies_miss (dir : Vector3d) (bodyIdx : Int) (bodies : List (List Triangle))
    (best : Int × Option ℚ)
    (h : ∀ body ∈ bodies, ∀ tri ∈ body, intersectTriangle dir tri = none) :
    scanBodies dir bodyIdx bodies best = best := by
  induction bodies generalizing bodyIdx best with
  | nil => rfl
  | cons b rest ih =>
      show scanBodies dir (bodyIdx + 1) rest (scanTriangles dir bodyIdx b best) = best
      rw [scanTriangles_miss dir bodyIdx b best (h b (by simp))]
      exact ih (bodyIdx + 1) best (fun body hbody tri htri => h body (by simp [hbody]) tri htri)

theorem renderKernel_getElem? (K : Matrix3d) (nr nc : ℕ) (bodies : List (List Triangle))
    (p : ℕ) (hp : p < nr * nc) :
    (renderKernel K nr nc bodies)[p]? =
      some (renderPixel bodies (rayDirection K (p / nc) (p % nc))) := by
  unfold renderKernel
  rw [List.getElem?_map, List.getElem?_range hp]
  rfl

end dbot

open dbot

/-- Claim C7: rendering is deterministic and effect-free: a const Render
call on a renderer (same mesh set, poses, camera matrix and resolution)
performed twice yields identical body-index and depth outputs, and
neither call changes the renderer's pose or camera state. -/
theorem claim_c7_deterministic (r : RigidBodyRenderer) (K : Matrix3d) (nr nc : ℕ) :
    (RenderCall r K nr nc).1 = (RenderCall (RenderCall r K nr nc).2 K nr nc).1
    ∧ (RenderCall r K nr nc).2 = r
    ∧ (RenderCall (RenderCall r K nr nc).2 K nr nc).2 = r :=
  ⟨rfl, rfl, rfl⟩

/-- Claim C6: the generic Render(state, output) overload extracts one
rotation matrix and one translation vector per part in part order,
replaces the renderer's poses with exactly those arrays via set_poses
(succeeding whenever the part count matches the body count), renders with
the cached (unchanged) camera matrix and resolution, and leaves the new
poses installed for subsequent renders. -/
theorem claim_c6_render_state (r : RigidBodyRenderer) (s : RigidbodyState)
    (h : s.count_parts = r.bodyCount) :
    RenderState r s = Except.ok (withStatePoses r s, RenderDepth (withStatePoses r s))
    ∧ set_poses r (s.parts.map Prod.fst) (s.parts.map Prod.snd) =
        Except.ok (withStatePoses r s)
    ∧ (withStatePoses r s).camera_matrix = r.camera_matrix
    ∧ (withStatePoses r s).n_rows = r.n_rows
    ∧ (withStatePoses r s).n_cols = r.n_cols
    ∧ (withStatePoses r s).R = s.parts.map Prod.fst
    ∧ (withStatePoses r s).t = s.parts.map Prod.snd
    ∧ RenderDepth (withStatePoses r s) =
        RenderDepthCam (withStatePoses r s) r.camera_matrix r.n_rows r.n_cols := by
  have h1 : (s.parts.map Prod.fst).length = r.bodyCount := by
    simpa [RigidbodyState.count_parts] using h
  have h2 : (s.parts.map Prod.snd).length = r.bodyCount := by
    simpa [RigidbodyState.count_parts] using h
  have hsp : set_poses r (s.parts.map Prod.fst) (s.parts.map Prod.snd) =
      Except.ok (withStatePoses r s) := by
    unfold set_poses withStatePoses
    rw [if_pos ⟨h1, h2⟩]
  refine ⟨?_, hsp, rfl, rfl, rfl, rfl, rfl, rfl⟩
  simp only [RenderState, hsp, RenderDepth]

/-- Claim C6 witness: the generic render on a one-body renderer with a
one-part state carrying the identity pose. -/
theorem claim_c6_witness :
    (RigidbodyState.mk [(Matrix3d.identity, Vector3d.zero)]).count_parts =
      (RigidBodyRenderer.mk Matrix3d.identity 1 1 [[Vector3d.zero]] [[]]
        [Matrix3d.identity] [Vector3d.zero]).bodyCount
    ∧ (RenderState
        (RigidBodyRenderer.mk Matrix3d.identity 1 1 [[Vector3d.zero]] [[]]
          [Matrix3d.identity] [Vector3d.zero])
        (RigidbodyState.mk [(Matrix3d.identity, Vector3d.zero)]) =
      Except.ok
        (withStatePoses
          (RigidBodyRenderer.mk Matrix3d.identity 1 1 [[Vector3d.zero]] [[]]
            [Matrix3d.identity] [Vector3d.zero])
          (RigidbodyState.mk [(Matrix3d.identity, Vector3d.zero)]),
         RenderDepth
          (withStatePoses
            (RigidBodyRenderer.mk Matrix3d.identity 1 1 [[Vector3d.zero]] [[]]
              [Matrix3d.identity] [Vector3d.zero])
            (RigidbodyState.mk [(Matrix3d.identity, Vector3d.zero)])))
    ∧ set_poses
        (RigidBodyRenderer.mk Matrix3d.identity 1 1 [[Vector3d.zero]] [[]]
          [Matrix3d.identity] [Vector3d.zero])
        ((RigidbodyState.mk [(Matrix3d.identity, Vector3d.zero)]).parts.map Prod.fst)
        ((RigidbodyState.mk [(Matrix3d.identity, Vector3d.zero)]).parts.map Prod.snd) =
      Except.ok
        (withStatePoses
          (RigidBodyRenderer.mk Matrix3d.identity 1 1 [[Vector3d.zero]] [[]]
            [Matrix3d.identity] [Vector3d.zero])
          (RigidbodyState.mk [(Matrix3d.identity, Vector3d.zero)]))
    ∧ (withStatePoses
        (RigidBodyRenderer.mk Matrix3d.identity 1 1 [[Vector3d.zero]] [[]]
          [Matrix3d.identity] [Vector3d.zero])
        (RigidbodyState.mk [(Matrix3d.identity, Vector3d.zero)])).camera_matrix =
      (RigidBodyRenderer.mk Matrix3d.identity 1 1 [[Vector3d.zero]] [[]]
        [Matrix3d.identity] [Vector3d.zero]).camera_matrix
    ∧ (withStatePoses
        (RigidBodyRenderer.mk Matrix3d.identity 1 1 [[Vector3d.zero]] [[]]
          [Matrix3d.identity] [Vector3d.zero])
        (RigidbodyState.mk [(Matrix3d.identity, Vector3d.zero)])).n_rows =
      (RigidBodyRenderer.mk Matrix3d.identity 1 1 [[Vector3d.zero]] [[]]
        [Matrix3d.identity] [Vector3d.zero]).n_rows
    ∧ (withStatePoses
        (RigidBodyRenderer.mk Matrix3d.identity 1 1 [[Vector3d.zero]] [[]]
          [Matrix3d.identity] [Vector3d.zero])
        (RigidbodyState.mk [(Matrix3d.identity, Vector3d.zero)])).n_cols =
      (RigidBodyRenderer.mk Matrix3d.identity 1 1 [[Vector3d.zero]] [[]]
        [Matrix3d.identity] [Vector3d.zero]).n_cols
    ∧ (withStatePoses
        (RigidBodyRenderer.mk Matrix3d.identity 1 1 [[Vector3d.zero]] [[]]
          [Matrix3d.identity] [Vector3d.zero])
        (RigidbodyState.mk [(Matrix3d.identity, Vector3d.zero)])).R =
      (RigidbodyState.mk [(Matrix3d.identity, Vector3d.zero)]).parts.map Prod.fst
    ∧ (withStatePoses
        (RigidBodyRenderer.mk Matrix3d.identity 1 1 [[Vector3d.zero]] [[]]
          [Matrix3d.identity] [Vector3d.zero])
        (RigidbodyState.mk [(Matrix3d.identity, Vector3d.zero)])).t =
      (RigidbodyState.mk [(Matrix3d.identity, Vector3d.zero)]).parts.map Prod.snd
    ∧ RenderDepth
        (withStatePoses
          (RigidBodyRenderer.mk Matrix3d.identity 1 1 [[Vector3d.zero]] [[]]
            [Matrix3d.identity] [Vector3d.zero])
          (RigidbodyState.mk [(Matrix3d.identity, Vector3d.zero)])) =
      RenderDepthCam
        (withStatePoses
          (RigidBodyRenderer.mk Matrix3d.identity 1 1 [[Vector3d.zero]] [[]]
            [Matrix3d.identity] [Vector3d.zero])
          (RigidbodyState.mk [(Matrix3d.identity, Vector3d.zero)]))
        (RigidBodyRenderer.mk Matrix3d.identity 1 1 [[Vector3d.zero]] [[]]
          [Matrix3d.identity] [Vector3d.zero]).camera_matrix
        (RigidBodyRenderer.mk Matrix3d.identity 1 1 [[Vector3d.zero]] [[]]
          [Matrix3d.identity] [Vector3d.zero]).n_rows
        (RigidBodyRenderer.mk Matrix3d.identity 1 1 [[Vector3d.zero]] [[]]
          [Matrix3d.identity] [Vector3d.zero]).n_cols) :=
  ⟨rfl,
   claim_c6_render_state
     (RigidBodyRenderer.mk Matrix3d.identity 1 1 [[Vector3d.zero]] [[]]
       [Matrix3d.identity] [Vector3d.zero])
     (RigidbodyState.mk [(Matrix3d.identity, Vector3d.zero)]) rfl⟩

/-- Claim C8: a pixel whose ray validly intersects no triangle of any
body (validity requires the hit to lie within the triangle at strictly
positive depth along the camera's forward axis) receives the sentinel
body index -1 and the non-finite depth marker; rendering is a total
function, so a no-hit pixel is a normal result and never a failure. -/
theorem claim_c8_no_hit (r : RigidBodyRenderer) (K : Matrix3d) (nr nc p : ℕ)
    (hp : p < nr * nc)
    (hmiss : ∀ body ∈ posedTriangles r, ∀ tri ∈ body,
        intersectTriangle (rayDirection K (p / nc) (p % nc)) tri = none) :
    (RenderFull r K nr nc).1.getD p 0 = -1
    ∧ (RenderFull r K nr nc).2.getD p (some 0) = none := by
  have hpx : renderPixel (posedTriangles r) (rayDirection K (p / nc) (p % nc)) =
      (-1, none) := by
    unfold renderPixel
    exact scanBodies_miss _ _ _ _ hmiss
  have hker := renderKernel_getElem? K nr nc (posedTriangles r) p hp
  rw [hpx] at hker
  constructor
  · show ((renderKernel K nr nc (posedTriangles r)).map Prod.fst).getD p 0 = -1
    rw [List.getD_eq_getElem?_getD, List.getElem?_map, hker]
    rfl
  · show ((renderKernel K nr nc (posedTriangles r)).map Prod.snd).getD p (some 0) = none
    rw [List.getD_eq_getElem?_getD, List.getElem?_map, hker]
    rfl

/-- A one-body renderer whose single triangle sits at z = -1, behind a
pinhole camera at the origin with identity intrinsics and a 1-by-1 image:
the concrete no-intersection scenario of the spec's testable properties. -/
def rendererBehind : RigidBodyRenderer :=
  RigidBodyRenderer.mk Matrix3d.identity 1 1
    [[Vector3d.mk 0 0 (-1), Vector3d.mk 1 0 (-1), Vector3d.mk 0 1 (-1)]]
    [[[0, 1, 2]]] [Matrix3d.identity] [Vector3d.zero]

/-- Claim C8 witness: the no-hit property at pixel 0 of the
behind-the-camera scenario (hits would be at negative depth, hence
invalid). -/
theorem claim_c8_witness :
    0 < 1 * 1
    ∧ (∀ body ∈ posedTriangles rendererBehind, ∀ tri ∈ body,
        intersectTriangle (rayDirection Matrix3d.identity (0 / 1) (0 % 1)) tri = none)
    ∧ ((RenderFull rendererBehind Matrix3d.identity 1 1).1.getD 0 0 = -1
    ∧ (RenderFull rendererBehind Matrix3d.identity 1 1).2.getD 0 (some 0) = none) := by
  have hdir : rayDirection Matrix3d.identity 0 0 = Vector3d.mk 0 0 1 := by
    norm_num [rayDirection, Matrix3d.inv, Matrix3d.det, Matrix3d.mulVec,
      Vector3d.dot, Matrix3d.identity]
  have htri : posedTriangles rendererBehind =
      [[(Vector3d.mk 0 0 (-1), Vector3d.mk 1 0 (-1), Vector3d.mk 0 1 (-1))]] := by
    norm_num [posedTriangles, rendererBehind, posedVertex, Matrix3d.mulVec,
      Vector3d.dot, Vector3d.add, Matrix3d.identity, Vector3d.zero, List.range_succ,
      Triangle]
  have hint : intersectTriangle (Vector3d.mk 0 0 1)
      (Vector3d.mk 0 0 (-1), Vector3d.mk 1 0 (-1), Vector3d.mk 0 1 (-1)) = none := by
    norm_num [intersectTriangle, Vector3d.sub, Vector3d.cross, Vector3d.dot,
      Vector3d.zero]
  have hmiss : ∀ body ∈ posedTriangles rendererBehind, ∀ tri ∈ body,
      intersectTriangle (rayDirection Matrix3d.identity (0 / 1) (0 % 1)) tri = none := by
    simp only [htri, List.mem_singleton, Nat.zero_div, Nat.zero_mod]
    intro body hb tri ht
    subst hb
    rw [List.mem_singleton] at ht
    subst ht
    rw [hdir]
    exact hint
  exact ⟨by decide, hmiss, claim_c8_no_hit rendererBehind Matrix3d.identity 1 1 0
    (by decide) hmiss⟩

/-- The empty scene: a renderer with no bodies, identity intrinsics and a
1-by-1 image, and the empty pose source; its single pixel has no hit. -/
def emptyRenderer : RigidBodyRenderer :=
  RigidBodyRenderer.mk Matrix3d.identity 1 1 [] [] [] []

/-- The pose source with zero parts. -/
def emptyState : RigidbodyState := RigidbodyState.mk []

/-- Claim C3 (evaluation at the failing input): with the caller-supplied
bad value 0, the VectorXd overload writes 0 at the no-hit pixel as the
claim says, but the VectorXf overload writes the infinity marker `none`,
ignoring the caller-supplied bad value: the narrow-precision half of the
claim is false of the code. -/
theorem claim_c3_eval :
    RenderVectorXd emptyRenderer emptyState (some 0) =
      Except.ok (emptyRenderer, [some 0])
    ∧ RenderVectorXf emptyRenderer emptyState (some 0) =
      Except.ok (emptyRenderer, [none])
    ∧ (some (0 : ℚ) : Option ℚ) ≠ none :=
  ⟨rfl, rfl, by decide⟩
